import Mathlib

/-!
Verification development for the Process Execution & Supervision Subsystem
of the `cli` repository (src/tools.js, which bundles the `processTools`
object and the `TerminalManager` class).

The JavaScript source is shallowly embedded in Lean.  Conventions:

* A child process exit code is `Option Int`: Node passes `null` (our `none`)
  to the `close` handler when the child was terminated by a signal, and an
  integer otherwise.  The JavaScript test `code === 0` is `code == some 0`.
* Promise settlement is modelled by an outcome type distinguishing
  - `resolved r` : the promise resolved with `r`;
  - `rejected e` : the promise rejected.  This happens exactly when the
    function body passed to `new Promise` throws synchronously (the Promise
    constructor converts an executor throw into a rejection), and a caller
    that `await`s inside `try/catch` catches it;
  - `faulted e`  : an exception was thrown from an asynchronous event
    callback (such as the `close` listener).  The Promise machinery does not
    observe such a throw: it escapes to the event loop as an uncaught
    exception and the pending promise never settles, so no caller can catch
    it or receive a value.
* Child behaviour (what the spawned OS process does) is an explicit input
  `ChildBehavior`: either the spawn itself fails (the runtime later emits an
  `error` event) or the child runs, producing stdout/stderr chunks and an
  exit code.
* JavaScript objects whose fields may be absent (`undefined`) are modelled
  with `Option` fields; an environment object is an association list read
  through `lookupEnv`.
-/

namespace GeminiCli

/-- Rendering of a value interpolated into a JS template literal:
`null` renders as "null", a number via its decimal representation. -/
def jsShow : Option Int → String
  | none => "null"
  | some n => toString n

/-- Concatenation of the data chunks accumulated by `stdout += data.toString()`
(in arrival order, starting from the empty string). -/
def concatChunks (cs : List String) : String := cs.foldl (· ++ ·) ""

/-- Options of `processTools.executeCommand` that affect its control flow,
with the defaults of the source's destructuring
(`verbose = true`, `throwOnError = true`).  `cwd` and `env` do not affect
the settlement path and are modelled separately (see `mergedSpawnEnv`). -/
structure ExecOptions where
  verbose : Bool := true
  throwOnError : Bool := true
  deriving Repr, DecidableEq

/-- The object `executeCommand` resolves with: `{success, code, stdout, stderr}`. -/
structure ExecResult where
  success : Bool
  code : Option Int
  stdout : String
  stderr : String
  deriving Repr, DecidableEq

/-- A thrown JavaScript error, with the extra fields the source attaches to
the `Command failed` error.  `code = none` models the field being absent
(`undefined`), `code = some c` models `error.code = c` where `c` itself is
the (possibly `null`) exit code. -/
structure JsError where
  message : String
  code : Option (Option Int) := none
  stdout : Option String := none
  stderr : Option String := none
  deriving Repr, DecidableEq

/-- What the spawned child does: the spawn fails (the runtime emits an
`error` event carrying `msg`), or the child runs, emits the given
stdout/stderr chunks and closes with the given exit code. -/
inductive ChildBehavior where
  | spawnFailure (msg : String)
  | runs (outChunks errChunks : List String) (exitCode : Option Int)
  deriving Repr, DecidableEq

/-- Settlement of the promise returned by `executeCommand` (see the module
doc-comment for the three-way distinction). -/
inductive ExecOutcome where
  | resolved (r : ExecResult)
  | rejected (e : JsError)
  | faulted (e : JsError)
  deriving Repr, DecidableEq

/-- The TypeError raised by `child.stdout.on(...)` when `verbose` is false:
`stdio` is then `'ignore'`, so `child.stdout` is `null` and reading `.on`
from it throws.  It carries none of the command-failure fields. -/
def typeErrorNullOn : JsError :=
  { message := "Cannot read properties of null (reading 'on')" }

/-- The error constructed and thrown by the `close` handler of
`executeCommand` when the exit code is non-zero and `throwOnError` is set:
`new Error('Command failed with code ' + code)` with `error.code`,
`error.stdout`, `error.stderr` attached. -/
def cmdFailedErr (outChunks errChunks : List String) (code : Option Int) : JsError :=
  { message := "Command failed with code " ++ jsShow code
    code := some code
    stdout := some (concatChunks outChunks)
    stderr := some (concatChunks errChunks) }

/-- Embedding of `processTools.executeCommand` (src/tools.js lines 219-296).

The executor body runs synchronously: it spawns the child with
`stdio: verbose ? 'pipe' : 'ignore'`, then attaches `data` handlers.
When `verbose` is false the attachment faults on the `null` stream and the
promise rejects (no handler is ever registered, so no later event is
observed).  When `verbose` is true:
* spawn failure: the `error` listener resolves
  `{success:false, code:-1, stdout, stderr: error.message}` (with the empty
  accumulated stdout);
* the child closes with code `c`: the `close` listener computes
  `success = (c === 0)`; if `!success && throwOnError` it throws the
  command-failed error from inside the event callback (an uncaught fault —
  the promise never settles), otherwise it resolves
  `{success, code, stdout, stderr}`. -/
def executeCommand (opts : ExecOptions) (beh : ChildBehavior) : ExecOutcome :=
  if opts.verbose then
    match beh with
    | .spawnFailure msg =>
        .resolved { success := false, code := some (-1), stdout := "", stderr := msg }
    | .runs outChunks errChunks code =>
        let success := code == some 0
        if !success && opts.throwOnError then
          .faulted (cmdFailedErr outChunks errChunks code)
        else
          .resolved { success := success, code := code
                      stdout := concatChunks outChunks
                      stderr := concatChunks errChunks }
  else
    .rejected typeErrorNullOn

/-- One element of the array `runCommands` builds: on the success path it is
`{command, success: result.success, ...result}` and on the catch path
`{command, success:false, error: message, code, stdout, stderr}` where the
last three fields are copied off the caught error (and are `undefined`
for an error that does not carry them). -/
structure RunEntry where
  command : String
  success : Bool
  code : Option (Option Int)
  stdout : Option String
  stderr : Option String
  errMsg : Option String
  deriving Repr, DecidableEq

/-- Settlement of the promise returned by `runCommands`. -/
inductive RunOutcome where
  | returns (entries : List RunEntry)
  | rejected (e : JsError)
  | faulted (e : JsError)
  deriving Repr, DecidableEq

/-- Loop of `runCommands` (src/tools.js lines 304-332), also collecting the
list of commands on which `executeCommand` was invoked (in invocation
order).  `await` on:
* a resolved call pushes the success-path entry and continues;
* a rejected call is caught by the `try/catch`: the catch pushes the
  error entry, then rethrows when `options.stopOnError` is set (so the
  collected `results` are discarded and `runCommands` rejects), else
  continues;
* a faulted call never settles: the loop never resumes and no value is
  ever produced (the escaped exception is the observable outcome). -/
def runCommandsAux (opts : ExecOptions) (stopOnError : Bool) :
    List (String × ChildBehavior) → List RunEntry → RunOutcome × List String
  | [], acc => (.returns acc.reverse, [])
  | (c, beh) :: rest, acc =>
    match executeCommand opts beh with
    | .resolved r =>
        let entry : RunEntry :=
          { command := c, success := r.success, code := some r.code
            stdout := some r.stdout, stderr := some r.stderr, errMsg := none }
        let next := runCommandsAux opts stopOnError rest (entry :: acc)
        (next.1, c :: next.2)
    | .rejected e =>
        let entry : RunEntry :=
          { command := c, success := false, code := e.code
            stdout := e.stdout, stderr := e.stderr, errMsg := some e.message }
        if stopOnError then (.rejected e, [c])
        else
          let next := runCommandsAux opts stopOnError rest (entry :: acc)
          (next.1, c :: next.2)
    | .faulted e => (.faulted e, [c])

/-- Embedding of `processTools.runCommands(commands, options)`.  `opts` is
the option object as seen by each inner `executeCommand` call (the source
forwards `{cwd: cmd.cwd, ...options}`, so `verbose`/`throwOnError` keep
their defaults unless the caller set them); `stopOnError` is read off the
same option object by the catch clause. -/
def runCommands (opts : ExecOptions) (stopOnError : Bool)
    (cmds : List (String × ChildBehavior)) : RunOutcome × List String :=
  runCommandsAux opts stopOnError cmds []

/-- Return of `isCommandAvailable`: either the `async` function returns a
boolean, or the inner `await` never settles (pending forever on a fault). -/
inductive AvailOutcome where
  | returns (b : Bool)
  | pending (e : JsError)
  deriving Repr, DecidableEq

/-- Embedding of `processTools.isCommandAvailable` (src/tools.js lines
354-365): it awaits `executeCommand(checkCmd, { verbose: false })` inside
`try/catch` and returns `result.success`; a rejection is caught and turned
into `false`. -/
def isCommandAvailable (beh : ChildBehavior) : AvailOutcome :=
  match executeCommand { verbose := false, throwOnError := true } beh with
  | .resolved r => .returns r.success
  | .rejected _ => .returns false
  | .faulted e => .pending e

/-! ## TerminalManager (second file bundled in src/tools.js)

The registry `this.activeProcesses` is a `Map` keyed by `process.pid`.
When the spawn fails the child object's `pid` property is `undefined`, so
the key type is `Option Int` (`none` = `undefined`).  A map is modelled as
an association list with at most one entry per key (`setRecord` deletes the
old binding before prepending, mirroring `Map.set`). -/

/-- The value stored in `activeProcesses`: `{process, logFile, startTime,
command}`.  Of the child handle we keep the one property the registry
queries read, `process.killed` — `false` at spawn, and set to `true` only
by calling `.kill()` on that child object, which no code in the repository
does (`killProcess` signals through the global `process.kill` /
a spawned `taskkill`, neither of which touches this flag). -/
structure TRecord where
  command : String
  logFile : String
  startTime : Nat
  killed : Bool
  deriving Repr, DecidableEq

/-- The registry `this.activeProcesses`. -/
abbrev Registry : Type := List (Option Int × TRecord)

/-- `Map.delete(pid)`. -/
def eraseKey (reg : Registry) (pid : Option Int) : Registry :=
  reg.filter (fun p => !(p.1 == pid))

/-- `Map.set(pid, rec)` (overwrites any previous binding of the key). -/
def setRecord (reg : Registry) (pid : Option Int) (rec : TRecord) : Registry :=
  (pid, rec) :: eraseKey reg pid

/-- `Map.get(pid)`. -/
def lookupRecord (reg : Registry) (pid : Option Int) : Option TRecord :=
  (reg.find? (fun p => p.1 == pid)).map (fun p => p.2)

/-- One element of `listProcesses()` / the return of `getProcessInfo(pid)`:
`{pid, command, startTime, logFile, running: !proc.process.killed}`. -/
structure ProcInfo where
  pid : Option Int
  command : String
  startTime : Nat
  logFile : String
  running : Bool
  deriving Repr, DecidableEq

/-- Embedding of `TerminalManager.listProcesses` (lines 719-727). -/
def listProcesses (reg : Registry) : List ProcInfo :=
  reg.map (fun p =>
    { pid := p.1, command := p.2.command, startTime := p.2.startTime
      logFile := p.2.logFile, running := !p.2.killed })

/-- Embedding of `TerminalManager.getProcessInfo` (lines 679-690);
`none` models the `null` return for an untracked pid. -/
def getProcessInfo (reg : Registry) (pid : Option Int) : Option ProcInfo :=
  (lookupRecord reg pid).map (fun r =>
    { pid := pid, command := r.command, startTime := r.startTime
      logFile := r.logFile, running := !r.killed })

/-- Embedding of `TerminalManager.killProcess` (lines 697-713).
`signalOk` is the oracle for whether the platform kill primitive
(`process.kill(-pid, 'SIGTERM')` on POSIX, spawning `taskkill` on Windows)
throws: a throw is caught and turned into `false`.  The method never
touches `activeProcesses`, so the registry is returned unchanged on every
path. -/
def killProcess (reg : Registry) (pid : Option Int) (signalOk : Bool) :
    Bool × Registry :=
  match lookupRecord reg pid with
  | none => (false, reg)
  | some _ => (signalOk, reg)

/-- The result `_handleProcess`'s `close` listener resolves with:
`{success: code === 0, exitCode: code, outputPath: logFile, pid}`. -/
structure TermResult where
  success : Bool
  exitCode : Option Int
  outputPath : String
  pid : Option Int
  deriving Repr, DecidableEq

/-- The terminating log line `[INFO] Process exited with code ${code}\n`. -/
def infoLine (code : Option Int) : String :=
  "[INFO] Process exited with code " ++ jsShow code ++ "\n"

/-- The result object built by the `close` listener for a given pid,
log-file path and exit code. -/
def mkCloseResult (pid : Option Int) (logFile : String) (code : Option Int) :
    TermResult :=
  { success := code == some 0, exitCode := code, outputPath := logFile, pid := pid }

/-- Primitive effects the `close` listener of `_handleProcess` performs on
shared state, in the order its statements execute. -/
inductive Eff where
  | sinkWrite (line : String)
  | sinkEnd
  | removeRecord (pid : Option Int)
  | resolveResult (r : TermResult)
  deriving Repr, DecidableEq

/-- Transcription of the `close` listener body (src lines 652-663), one
effect per statement in source order:
`logStream.write(...)`; `logStream.end()`;
`this.activeProcesses.delete(pid)`; `resolve({...})`. -/
def closeEffs (pid : Option Int) (logFile : String) (code : Option Int) :
    List Eff :=
  [ .sinkWrite (infoLine code), .sinkEnd, .removeRecord pid,
    .resolveResult (mkCloseResult pid logFile code) ]

/-- The shared state the close listener acts on: the log sink (its written
lines and open flag), the registry, and the pending promise's resolution
(`none` while pending; `resolve` on an already-settled promise is a no-op). -/
structure HandlerState where
  sinkLines : List String
  sinkOpen : Bool
  registry : Registry
  resolution : Option TermResult

/-- Interpretation of one effect on the shared state. -/
def applyEff (s : HandlerState) : Eff → HandlerState
  | .sinkWrite line => { s with sinkLines := s.sinkLines ++ [line] }
  | .sinkEnd => { s with sinkOpen := false }
  | .removeRecord pid => { s with registry := eraseKey s.registry pid }
  | .resolveResult r =>
      match s.resolution with
      | none => { s with resolution := some r }
      | some _ => s

/-- Sequential interpretation of an effect list. -/
def runEffs (s : HandlerState) (effs : List Eff) : HandlerState :=
  effs.foldl applyEff s

/-- What the spawned terminal process does: it starts (with a real pid) and
later closes with an exit code, or the spawn itself fails and the runtime
emits an `error` event carrying `msg`. -/
inductive TermSpawn where
  | ok (pid : Int) (closeCode : Option Int)
  | failed (msg : String)
  deriving Repr, DecidableEq

/-- Settlement of the promise returned by `executeInNewTerminal`.
`unhandledError` records that an `error` event was emitted on the child
while `_handleProcess` registers listeners only for `stdout`/`stderr`
`data` and for `close` — an `error` emission with no listener is thrown by
the event emitter, escaping as an uncaught exception: the promise never
settles and no further handler of this execution runs. -/
inductive TermOutcome where
  | resolved (r : TermResult)
  | unhandledError (msg : String)
  deriving Repr, DecidableEq

/-- Embedding of one full `executeInNewTerminal` execution
(src lines 576-629 and `_handleProcess`, lines 635-672) against a registry,
returning the settlement, the final registry and the log-sink lines.

`_handleProcess` runs synchronously at spawn time: it registers the three
listeners and stores the record under `process.pid` — `undefined` (our
`none`) when the spawn failed.  Then:
* spawn ok: the `close` event eventually fires and the close listener's
  effects (`closeEffs`) run against the state;
* spawn failed: the runtime emits `error`; no `error` listener was
  registered, so the execution faults with the record still in the
  registry and the log sink still open and empty. -/
def executeInNewTerminalRun (reg : Registry) (command logFile : String)
    (startT : Nat) (sp : TermSpawn) : TermOutcome × Registry × List String :=
  match sp with
  | .ok pid code =>
      let reg1 := setRecord reg (some pid) ⟨command, logFile, startT, false⟩
      let s1 := runEffs ⟨[], true, reg1, none⟩ (closeEffs (some pid) logFile code)
      let out := match s1.resolution with
        | some r => TermOutcome.resolved r
        | none => TermOutcome.unhandledError "unreachable"
      (out, s1.registry, s1.sinkLines)
  | .failed msg =>
      let reg1 := setRecord reg none ⟨command, logFile, startT, false⟩
      (TermOutcome.unhandledError msg, reg1, [])

/-- The registry transitions the source performs: insertion at spawn by
`_handleProcess` (fresh child handle, so `killed = false`), deletion by the
`close` listener, and a `killProcess` call (which signals the OS process
but leaves the registry — and every record's `killed` flag — untouched). -/
inductive TMStep : Registry → Registry → Prop
  | spawn (reg : Registry) (pid : Option Int) (command logFile : String) (t : Nat) :
      TMStep reg (setRecord reg pid ⟨command, logFile, t, false⟩)
  | closeEvt (reg : Registry) (pid : Option Int) :
      TMStep reg (eraseKey reg pid)
  | killCall (reg : Registry) (pid : Option Int) (ok : Bool) :
      TMStep reg (killProcess reg pid ok).2

/-- Registries reachable from the manager's initial empty map. -/
inductive TMReach : Registry → Prop
  | init : TMReach []
  | step {reg reg' : Registry} : TMReach reg → TMStep reg reg' → TMReach reg'

/-! ## Environment merging in `executeCommand` -/

/-- A JavaScript object holding environment variables, as an association
list with unique keys; read through `lookupEnv`. -/
abbrev EnvMap : Type := List (String × String)

/-- Property read `obj[k]` (`none` = absent/`undefined`). -/
def lookupEnv (e : EnvMap) (k : String) : Option String :=
  (e.find? (fun p => p.1 == k)).map (fun p => p.2)

/-- The object literal `{ ...a, ...b }`, modelled up to key lookup: a key
bound in `b` reads `b`'s value, otherwise `a`'s.  (Listing `b` first makes
`lookupEnv`'s first-match rule read the overriding value.) -/
def jsSpread2 (a b : EnvMap) : EnvMap := b ++ a

/-- The environment `executeCommand` spawns the child with
(src lines 224 and 235): the option destructuring defaults `env` to
`process.env`, and the spawn call passes `{ ...process.env, ...env }`. -/
def mergedSpawnEnv (supEnv : EnvMap) (optEnv : Option EnvMap) : EnvMap :=
  jsSpread2 supEnv (optEnv.getD supEnv)

/-! ## Concrete instances used by witnesses and counterexamples -/

/-- A two-command batch whose first command exits 1 and whose second
exits 0 (the `runCommands([cmdA, cmdB], ...)` scenario). -/
def cmdsEx : List (String × ChildBehavior) :=
  [("cmdA", ChildBehavior.runs [] [] (some 1)),
   ("cmdB", ChildBehavior.runs [] [] (some 0))]

/-- A sample supervisor environment. -/
def supEnvEx : EnvMap := [("PATH", "/usr/bin"), ("HOME", "/root")]

/-- A sample caller-supplied `env` option colliding with the supervisor's
`PATH`. -/
def callerEnvEx : EnvMap := [("PATH", "/opt/bin")]

/-! ## Helper lemmas -/

/-- `killProcess` returns the registry unchanged on every path. -/
theorem killProcess_snd (reg : Registry) (pid : Option Int) (ok : Bool) :
    (killProcess reg pid ok).2 = reg := by
  unfold killProcess
  cases lookupRecord reg pid <;> rfl

/-- Every record ever present in a reachable registry was inserted by
`_handleProcess` with a fresh child handle, and no operation of the
manager sets the handle's `killed` flag, so the flag is `false` for all
present records. -/
theorem tmReach_killed_false {reg : Registry} (h : TMReach reg) :
    ∀ p ∈ reg, p.2.killed = false := by
  induction h with
  | init => intro p hp; cases hp
  | step _ hs ih =>
    cases hs with
    | spawn pid command logF t =>
      intro p hp
      simp only [setRecord, eraseKey] at hp
      rcases List.mem_cons.mp hp with h1 | h2
      · subst h1; rfl
      · exact ih p (List.mem_of_mem_filter h2)
    | closeEvt pid =>
      intro p hp
      exact ih p (List.mem_of_mem_filter hp)
    | killCall pid ok =>
      rw [killProcess_snd]
      exact ih

/-- First-match lookup distributes over list append. -/
theorem lookupEnv_append (a b : EnvMap) (k : String) :
    lookupEnv (a ++ b) k = (lookupEnv a k).orElse (fun _ => lookupEnv b k) := by
  induction a with
  | nil => rfl
  | cons hd t ih =>
    by_cases h : (hd.1 == k) = true
    · simp [lookupEnv, List.find?, h]
    · simpa [lookupEnv, List.find?, h] using ih

/-! ## Claims -/

/-- Claim C1 (code_bug evaluation): on a spawn failure,
`executeInNewTerminal` does not run the synthetic-close cleanup the spec
promises.  `_handleProcess` registers no `error` listener, so the runtime's
`error` event is unhandled: the execution faults, the promise is never
resolved, and the registry is left holding the record that was inserted
under the `undefined` pid — partial state the claim says is never left. -/
theorem execInNewTerminal_spawnFailure_faults_and_leaks :
    (executeInNewTerminalRun [] "ls -la" "log1" 0
        (TermSpawn.failed "spawn x-terminal-emulator ENOENT")).1
      = TermOutcome.unhandledError "spawn x-terminal-emulator ENOENT" ∧
    (executeInNewTerminalRun [] "ls -la" "log1" 0
        (TermSpawn.failed "spawn x-terminal-emulator ENOENT")).2.1
      = [(none, ⟨"ls -la", "log1", 0, false⟩)] ∧
    ∀ r, (executeInNewTerminalRun [] "ls -la" "log1" 0
        (TermSpawn.failed "spawn x-terminal-emulator ENOENT")).1
      ≠ TermOutcome.resolved r := by
  refine ⟨rfl, rfl, ?_⟩
  intro r h
  exact TermOutcome.noConfusion h

/-- Claim C2 (code_bug evaluation): a call on which the child runs and
exits 7 under `{verbose: false, throwOnError: false}` does not resolve
with `success = false, code = 7` as the claim requires — the promise
rejects with the TypeError raised while attaching a data handler to the
`null` stdout stream (`stdio` is `'ignore'` when `verbose` is false), so
the exit is never observed. -/
theorem executeCommand_nonverbose_exit7_rejects :
    executeCommand { verbose := false, throwOnError := false }
        (ChildBehavior.runs [] [] (some 7)) = ExecOutcome.rejected typeErrorNullOn ∧
    ∀ r, executeCommand { verbose := false, throwOnError := false }
        (ChildBehavior.runs [] [] (some 7)) ≠ ExecOutcome.resolved r := by
  refine ⟨rfl, ?_⟩
  intro r h
  exact ExecOutcome.noConfusion h

/-- Claim C3 (counterexample): with the first command failing,
`runCommands` never returns the result sequences the claim describes.
Under the default options the failing `executeCommand` throws from its
`close` callback — an uncaught fault — so with `stopOnError: true` no
length-1 sequence is returned, and with `stopOnError: false` no length-2
sequence is returned either. -/
theorem runCommands_claimed_sequences_false :
    (¬ ∃ l, (runCommands { verbose := true, throwOnError := true } true cmdsEx).1
        = RunOutcome.returns l ∧ l.length = 1) ∧
    (¬ ∃ l, (runCommands { verbose := true, throwOnError := true } false cmdsEx).1
        = RunOutcome.returns l ∧ l.length = 2) := by
  have h1 : (runCommands { verbose := true, throwOnError := true } true cmdsEx).1
      = RunOutcome.faulted (cmdFailedErr [] [] (some 1)) := rfl
  have h2 : (runCommands { verbose := true, throwOnError := true } false cmdsEx).1
      = RunOutcome.faulted (cmdFailedErr [] [] (some 1)) := rfl
  constructor
  · rintro ⟨l, hl, _⟩
    rw [h1] at hl
    exact RunOutcome.noConfusion hl
  · rintro ⟨l, hl, _⟩
    rw [h2] at hl
    exact RunOutcome.noConfusion hl

/-- Claim C3 (amended): `runCommands` runs the commands in order.  When the
first of two commands fails under the default throwing contract, the
thrown failure escapes as an uncaught fault: no result sequence is
returned and the second command never runs — for either value of
`stopOnError`.  Under `throwOnError: false` failures are returned as data:
both commands run and the returned sequence has length 2, the first entry
marked failed and the second reflecting its own outcome — again for either
value of `stopOnError`. -/
theorem runCommands_failure_propagation (a b : String) (oa ea ob eb : List String)
    (ca cb : Option Int) (stop : Bool) (h : (ca == some 0) = false) :
    (runCommands { verbose := true, throwOnError := true } stop
        [(a, ChildBehavior.runs oa ea ca), (b, ChildBehavior.runs ob eb cb)]).1
      = RunOutcome.faulted (cmdFailedErr oa ea ca) ∧
    (runCommands { verbose := true, throwOnError := true } stop
        [(a, ChildBehavior.runs oa ea ca), (b, ChildBehavior.runs ob eb cb)]).2
      = [a] ∧
    (runCommands { verbose := true, throwOnError := false } stop
        [(a, ChildBehavior.runs oa ea ca), (b, ChildBehavior.runs ob eb cb)]).1
      = RunOutcome.returns
          [{ command := a, success := false, code := some ca
             stdout := some (concatChunks oa), stderr := some (concatChunks ea)
             errMsg := none },
           { command := b, success := (cb == some 0), code := some cb
             stdout := some (concatChunks ob), stderr := some (concatChunks eb)
             errMsg := none }] ∧
    (runCommands { verbose := true, throwOnError := false } stop
        [(a, ChildBehavior.runs oa ea ca), (b, ChildBehavior.runs ob eb cb)]).2
      = [a, b] := by
  refine ⟨?_, ?_, ?_, ?_⟩ <;>
    simp [runCommands, runCommandsAux, executeCommand, h]

/-- Witness for the amended C3 at a concrete batch. -/
theorem runCommands_failure_propagation_wit :
    (runCommands { verbose := true, throwOnError := true } true
        [("cA", ChildBehavior.runs [] [] (some 1)),
         ("cB", ChildBehavior.runs ["ok\n"] [] (some 0))]).1
      = RunOutcome.faulted (cmdFailedErr [] [] (some 1)) ∧
    (runCommands { verbose := true, throwOnError := true } true
        [("cA", ChildBehavior.runs [] [] (some 1)),
         ("cB", ChildBehavior.runs ["ok\n"] [] (some 0))]).2
      = ["cA"] ∧
    (runCommands { verbose := true, throwOnError := false } true
        [("cA", ChildBehavior.runs [] [] (some 1)),
         ("cB", ChildBehavior.runs ["ok\n"] [] (some 0))]).1
      = RunOutcome.returns
          [{ command := "cA", success := false, code := some (some 1)
             stdout := some (concatChunks []), stderr := some (concatChunks [])
             errMsg := none },
           { command := "cB", success := (some 0 == some 0), code := some (some 0)
             stdout := some (concatChunks ["ok\n"]), stderr := some (concatChunks [])
             errMsg := none }] ∧
    (runCommands { verbose := true, throwOnError := false } true
        [("cA", ChildBehavior.runs [] [] (some 1)),
         ("cB", ChildBehavior.runs ["ok\n"] [] (some 0))]).2
      = ["cA", "cB"] :=
  runCommands_failure_propagation "cA" "cB" [] [] ["ok\n"] [] (some 1) (some 0) true rfl

/-- Claim C4 (confirmed): every result `executeCommand` actually resolves
with — including the spawn-failure result `{success:false, code:-1}` —
satisfies `code === 0` iff `success === true`. -/
theorem executeCommand_code_zero_iff_success (opts : ExecOptions)
    (beh : ChildBehavior) (r : ExecResult)
    (h : executeCommand opts beh = ExecOutcome.resolved r) :
    r.code = some 0 ↔ r.success = true := by
  unfold executeCommand at h
  split at h
  · cases beh with
    | spawnFailure msg =>
      injection h with h'
      subst h'
      simp
    | runs outChunks errChunks code =>
      simp only at h
      split at h
      · exact absurd h (by simp)
      · injection h with h'
        subst h'
        simp
  · exact absurd h (by simp)

/-- Witness for C4 at a concrete successful run. -/
theorem executeCommand_code_zero_iff_success_wit :
    ({ success := true, code := some 0, stdout := "x", stderr := "" } : ExecResult).code
        = some 0 ↔
    ({ success := true, code := some 0, stdout := "x", stderr := "" } : ExecResult).success
        = true :=
  executeCommand_code_zero_iff_success { verbose := true, throwOnError := true }
    (ChildBehavior.runs ["x"] [] (some 0)) _ rfl

/-- Claim C5 (code_bug evaluation): with `verbose: false` the call is not
total at its public interface — even for a child that runs successfully
and produces output, the promise rejects with the TypeError raised on the
`null` stdout stream (`stdio` is `'ignore'`), and no
`{success, code, stdout, stderr}` result is ever resolved. -/
theorem executeCommand_nonverbose_never_resolves :
    executeCommand { verbose := false, throwOnError := true }
        (ChildBehavior.runs ["hi\n"] [] (some 0)) = ExecOutcome.rejected typeErrorNullOn ∧
    ∀ r, executeCommand { verbose := false, throwOnError := true }
        (ChildBehavior.runs ["hi\n"] [] (some 0)) ≠ ExecOutcome.resolved r := by
  refine ⟨rfl, ?_⟩
  intro r h
  exact ExecOutcome.noConfusion h

/-- Claim C6 (confirmed): the `close` listener of `_handleProcess`
performs, in source order, (1) the log-sink finalization — appending the
`[INFO] Process exited with code <N>` line, where `<N>` is rendered from
the same exit code that the resolved result carries, and ending the sink —
(2) the registry removal, (3) the resolution of the pending promise. -/
theorem closeHandler_finalize_remove_resolve (pid : Option Int) (logF : String)
    (code : Option Int) (s : HandlerState) (h : s.resolution = none) :
    closeEffs pid logF code =
      [Eff.sinkWrite (infoLine code), Eff.sinkEnd, Eff.removeRecord pid,
       Eff.resolveResult (mkCloseResult pid logF code)] ∧
    (mkCloseResult pid logF code).exitCode = code ∧
    infoLine code = "[INFO] Process exited with code " ++ jsShow code ++ "\n" ∧
    (runEffs s (closeEffs pid logF code)).sinkLines = s.sinkLines ++ [infoLine code] ∧
    (runEffs s (closeEffs pid logF code)).sinkOpen = false ∧
    (runEffs s (closeEffs pid logF code)).registry = eraseKey s.registry pid ∧
    (runEffs s (closeEffs pid logF code)).resolution
      = some (mkCloseResult pid logF code) := by
  refine ⟨rfl, rfl, rfl, ?_, ?_, ?_, ?_⟩ <;>
    simp [runEffs, closeEffs, applyEff, h]

/-- Witness for C6 at a concrete close event. -/
theorem closeHandler_finalize_remove_resolve_wit :
    closeEffs (some 2) "logA" (some 0) =
      [Eff.sinkWrite (infoLine (some 0)), Eff.sinkEnd, Eff.removeRecord (some 2),
       Eff.resolveResult (mkCloseResult (some 2) "logA" (some 0))] ∧
    (mkCloseResult (some 2) "logA" (some 0)).exitCode = some 0 ∧
    infoLine (some 0) = "[INFO] Process exited with code " ++ jsShow (some 0) ++ "\n" ∧
    (runEffs ⟨[], true, [], none⟩ (closeEffs (some 2) "logA" (some 0))).sinkLines
      = ([] : List String) ++ [infoLine (some 0)] ∧
    (runEffs ⟨[], true, [], none⟩ (closeEffs (some 2) "logA" (some 0))).sinkOpen = false ∧
    (runEffs ⟨[], true, [], none⟩ (closeEffs (some 2) "logA" (some 0))).registry
      = eraseKey [] (some 2) ∧
    (runEffs ⟨[], true, [], none⟩ (closeEffs (some 2) "logA" (some 0))).resolution
      = some (mkCloseResult (some 2) "logA" (some 0)) :=
  closeHandler_finalize_remove_resolve (some 2) "logA" (some 0) ⟨[], true, [], none⟩ rfl

/-- Claim C7 (confirmed): in every reachable registry, each record
observed through `listProcesses` or `getProcessInfo` carries
`running = true`; a present record with `running = false` is not a
reachable state. -/
theorem registry_records_always_running (reg : Registry) (h : TMReach reg) :
    (∀ info ∈ listProcesses reg, info.running = true) ∧
    (∀ pid info, getProcessInfo reg pid = some info → info.running = true) := by
  have hk := tmReach_killed_false h
  constructor
  · intro info hinfo
    simp only [listProcesses, List.mem_map] at hinfo
    rcases hinfo with ⟨p, hp, rfl⟩
    simp [hk p hp]
  · intro pid info hinfo
    simp only [getProcessInfo, Option.map_eq_some'] at hinfo
    rcases hinfo with ⟨rec, hr, rfl⟩
    simp only [lookupRecord, Option.map_eq_some'] at hr
    rcases hr with ⟨p, hp, rfl⟩
    simp [hk p (List.mem_of_find?_eq_some hp)]

/-- Witness for C7 at the registry reached by one spawn. -/
theorem registry_records_always_running_wit :
    (∀ info ∈ listProcesses (setRecord [] (some 5) ⟨"ls", "log0", 3, false⟩),
        info.running = true) ∧
    (∀ pid info,
        getProcessInfo (setRecord [] (some 5) ⟨"ls", "log0", 3, false⟩) pid = some info →
        info.running = true) :=
  registry_records_always_running _
    (TMReach.step TMReach.init (TMStep.spawn [] (some 5) "ls" "log0" 3))

/-- Claim C8 (confirmed): `killProcess` leaves the registry exactly as it
found it on every path — removal can only come from the exit-callback
path — and a pid with no registry entry yields `false` without any
fault. -/
theorem killProcess_frame_and_notfound (reg : Registry) (pid : Option Int) (ok : Bool) :
    (killProcess reg pid ok).2 = reg ∧
    (lookupRecord reg pid = none → (killProcess reg pid ok).1 = false) := by
  unfold killProcess
  cases h : lookupRecord reg pid <;> simp

/-- Witness for C8 at an empty registry. -/
theorem killProcess_frame_and_notfound_wit :
    (killProcess [] (some 9) true).2 = [] ∧ (killProcess [] (some 9) true).1 = false :=
  ⟨(killProcess_frame_and_notfound [] (some 9) true).1,
   (killProcess_frame_and_notfound [] (some 9) true).2 rfl⟩

/-- Claim C9 (code_bug evaluation): `isCommandAvailable` resolves `false`
for every probe — including one whose lookup utility succeeds with exit
code 0 — because the inner `executeCommand(..., {verbose: false})` always
rejects with the `null`-stream TypeError before the lookup's exit can be
observed, and the catch converts that rejection to `false`. -/
theorem isCommandAvailable_always_false :
    isCommandAvailable (ChildBehavior.runs ["/bin/sh\n"] [] (some 0))
      = AvailOutcome.returns false ∧
    ∀ beh, isCommandAvailable beh = AvailOutcome.returns false := by
  refine ⟨rfl, ?_⟩
  intro beh
  rfl

/-- Claim C10 (confirmed): the child of `executeCommand` is spawned with
`{...process.env, ...env}` — caller-supplied entries override the
supervisor's on key collisions, every supervisor variable survives the
merge, and omitting `env` reads back exactly the supervisor's
environment. -/
theorem mergedSpawnEnv_lookup (sup caller : EnvMap) (k : String) :
    (∀ v, lookupEnv caller k = some v →
        lookupEnv (mergedSpawnEnv sup (some caller)) k = some v) ∧
    (∀ v, lookupEnv sup k = some v →
        ∃ w, lookupEnv (mergedSpawnEnv sup (some caller)) k = some w) ∧
    lookupEnv (mergedSpawnEnv sup none) k = lookupEnv sup k := by
  have hm : lookupEnv (mergedSpawnEnv sup (some caller)) k
      = (lookupEnv caller k).orElse (fun _ => lookupEnv sup k) :=
    lookupEnv_append caller sup k
  have hn : lookupEnv (mergedSpawnEnv sup none) k
      = (lookupEnv sup k).orElse (fun _ => lookupEnv sup k) :=
    lookupEnv_append sup sup k
  refine ⟨?_, ?_, ?_⟩
  · intro v hv
    rw [hm, hv]
    rfl
  · intro v hv
    rw [hm]
    cases hc : lookupEnv caller k with
    | none => exact ⟨v, by rw [hv]; rfl⟩
    | some w => exact ⟨w, rfl⟩
  · rw [hn]
    cases lookupEnv sup k <;> rfl

/-- Witness for C10 at concrete environments. -/
theorem mergedSpawnEnv_lookup_wit :
    lookupEnv (mergedSpawnEnv supEnvEx (some callerEnvEx)) "PATH" = some "/opt/bin" ∧
    (∃ w, lookupEnv (mergedSpawnEnv supEnvEx (some callerEnvEx)) "HOME" = some w) ∧
    lookupEnv (mergedSpawnEnv supEnvEx none) "HOME" = lookupEnv supEnvEx "HOME" :=
  ⟨(mergedSpawnEnv_lookup supEnvEx callerEnvEx "PATH").1 "/opt/bin" rfl,
   (mergedSpawnEnv_lookup supEnvEx callerEnvEx "HOME").2.1 "/root" rfl,
   (mergedSpawnEnv_lookup supEnvEx callerEnvEx "HOME").2.2⟩

end GeminiCli
